import Mathlib

/-!
# Verification of the QrCodeBot core (src/Qrcode_Bot.py)

Shallow embedding of the QR-bot conversation core: the per-user style
state kept in the bot session, the QR generation pipeline
(generate_custom_qr, image_to_qr_base64), the decoder
(decode_qr_from_image_bytes), and the Telegram message handlers
(button_callback, text_message_handler, photo_or_document_handler,
unknown_handler) together with the handler-registration order of main().

External libraries (PIL, the qrcode renderer, OpenCV) are modelled as
oracles gathered in an Env record: the embedding records exactly which
calls the Python code makes and how it combines their results, while the
pixel-level behaviour of the libraries stays abstract.  Machine-level
details that the code never branches on (PNG bytes, raster pixels) are
kept symbolic; everything the code branches on (string lengths, the 2500
capacity ceiling, dictionary lookups, truthiness of the decoded string)
is modelled exactly.
-/

/-- RGB colour triple, mirroring the Python tuples in COLOR_MAP. -/
structure RGB where
  r : Nat
  g : Nat
  b : Nat
  deriving DecidableEq

/-- Error-correction levels of the qrcode library. -/
inductive ECLevel where
  | L
  | M
  | Q
  | H
  deriving DecidableEq

/-- Module drawer choice: RoundedModuleDrawer or SquareModuleDrawer. -/
inductive ModuleShape where
  | square
  | rounded
  deriving DecidableEq

/-- Symbolic record of the image produced by generate_custom_qr
(Qrcode_Bot.py lines 192-215): it captures every parameter the Python
code passes to the qrcode library. -/
structure QRImage where
  data : String
  error_correction : ECLevel
  box_size : Nat
  border : Nat
  drawer : ModuleShape
  front_color : RGB
  back_color : RGB
  deriving DecidableEq

/-- Abstract raster image: the only raster attributes the handler code
reads are width, height and (implicitly, through convert RGBA and the
paste mask) the alpha channel. -/
structure Raster where
  width : Nat
  height : Nat
  hasAlpha : Bool
  deriving DecidableEq

/-- The per-user session dictionary context.user_data.  The code uses
exactly the keys mode, qr_color and qr_rounded; a missing key is none. -/
structure UserData where
  mode : Option String
  qr_color : Option RGB
  qr_rounded : Option Bool
  deriving DecidableEq

/-- Cleared user_data (context.user_data.clear()). -/
def emptyUD : UserData := ⟨none, none, none⟩

/-- Python exceptions that can escape the embedded functions. -/
inductive BotError where
  | keyError : String → BotError
  | valueError : String → BotError
  | dataOverflow : BotError
  | cvError : BotError
  | pilError : BotError
  deriving DecidableEq

/-- Outbound photo payloads: either a plain generated QR image, or a QR
raster with a logo pasted on it (base, raster side in pixels, resized
logo, paste position, paste mask). -/
inductive Photo where
  | qr : QRImage → Photo
  | qrWithLogo : QRImage → Nat → Raster → Int × Int → Option Raster → Photo
  deriving DecidableEq

/-- Outbound actions the handlers perform on the chat transport. -/
inductive BotAction where
  | sendText : String → BotAction
  | sendPhoto : Photo → BotAction
  | editMarkup : Bool → BotAction
  deriving DecidableEq

/-- Incoming Telegram messages, as far as the registered handlers
distinguish them. -/
inductive TgMessage where
  | text : String → TgMessage
  | photo : List Nat → TgMessage
  | document : String → List Nat → TgMessage
  | other : TgMessage
  deriving DecidableEq

/-- Oracles for the external libraries used by the bot.  compress is the
PIL pipeline of image_to_qr_base64 (open, convert RGB, thumbnail 128,
save PNG optimized); openRGBA is Image.open followed by convert RGBA;
fitVersion is the qrcode version chosen by qr.make(fit=True) for a given
payload; imdecode and detectAndDecode are the OpenCV calls of
decode_qr_from_image_bytes (a raster handle is an opaque Nat);
detectAndDecodeMulti is the OpenCV multi-symbol API, which the source
never calls.  makeFits is the fit decision of qr.make(fit=True): true
when the payload fits some version up to 40 at the configured level H
under the library segment optimisation (in plain byte mode at most 1273
bytes fit), false when the call raises DataOverflowError; fitVersion is
the version chosen when the fit succeeds. -/
structure Env where
  compress : List Nat → Except BotError (List Nat)
  openRGBA : List Nat → Except BotError Raster
  fitVersion : String → Nat
  makeFits : String → Bool
  imdecode : List Nat → Option Nat
  detectAndDecode : Nat → Except BotError String
  detectAndDecodeMulti : Nat → Except BotError (List String)

/-- String prefix test (Python str.startswith), by structural list
comparison so that it evaluates in the kernel. -/
def strStartsWith (s p : String) : Bool := p.data.isPrefixOf s.data

/-- First whitespace-delimited token of a string (used only to model
command dispatch for /start and /stop). -/
def firstToken (s : String) : String := ⟨s.data.takeWhile (fun c => c != ' ')⟩

/-- COLOR_MAP from Qrcode_Bot.py lines 62-69. -/
def COLOR_MAP (data : String) : Option RGB :=
  if data = "color_red" then some ⟨220, 20, 60⟩
  else if data = "color_blue" then some ⟨30, 144, 255⟩
  else if data = "color_green" then some ⟨34, 139, 34⟩
  else if data = "color_purple" then some ⟨138, 43, 226⟩
  else if data = "color_black" then some ⟨0, 0, 0⟩
  else if data = "color_orange" then some ⟨255, 140, 0⟩
  else none

/-- generate_custom_qr (lines 192-215): error correction is always
ERROR_CORRECT_H, box_size 12, border 4, white background, drawer chosen
by the rounded flag.  The PNG serialisation is kept symbolic.  This
record is the image produced when the payload fits the symbol; the
capacity failure of the qr.make(fit=True) step (line 199) is modelled by
generate_custom_qr_checked, used at the call site whose payload is not a
short fixed constant.  The fixed payloads of the styled and link
branches (11 and 25 bytes) always fit, far below the 1273 byte level H
ceiling of version 40. -/
def generate_custom_qr (data : String) (color : RGB) (rounded : Bool) : QRImage :=
  { data := data
    error_correction := ECLevel.H
    box_size := 12
    border := 4
    drawer := if rounded then ModuleShape.rounded else ModuleShape.square
    front_color := color
    back_color := ⟨255, 255, 255⟩ }

/-- The call generate_custom_qr(data, color, rounded) as executed:
qr.add_data(data) followed by qr.make(fit=True) raises
DataOverflowError when the payload exceeds the capacity of the largest
symbol version at the configured level H (the makeFits oracle carries
the library fit decision); otherwise the styled image with the
configured parameters is produced. -/
def generate_custom_qr_checked (env : Env) (data : String) (color : RGB) (rounded : Bool) :
    Except BotError QRImage :=
  if env.makeFits data then .ok (generate_custom_qr data color rounded)
  else .error .dataOverflow

/-- One character of the standard base64 alphabet. -/
def b64Char (n : Nat) : Char :=
  "ABCDEFGHIJKLMNOPQRSTUVWXYZabcdefghijklmnopqrstuvwxyz0123456789+/".data.getD n '='

/-- Standard base64 encoding of a byte list, three bytes to four
characters, with trailing padding, as base64.b64encode does. -/
def b64Chunks : List Nat → List Char
  | [] => []
  | [a] => [b64Char (a / 4), b64Char (a % 4 * 16), '=', '=']
  | [a, b] => [b64Char (a / 4), b64Char (a % 4 * 16 + b / 16), b64Char (b % 16 * 4), '=']
  | a :: b :: c :: rest =>
      b64Char (a / 4) :: b64Char (a % 4 * 16 + b / 16) ::
        b64Char (b % 16 * 4 + c / 64) :: b64Char (c % 64) :: b64Chunks rest
  termination_by structural l => l

/-- base64.b64encode(...).decode() as a Lean string. -/
def b64encode (l : List Nat) : String := ⟨b64Chunks l⟩

/-- decode_qr_from_image_bytes (lines 232-239).  cv2.imdecode failure
(None) yields the empty list; otherwise the single-symbol
detectAndDecode call is made and its result returned as a singleton when
the decoded string is truthy (non-empty).  There is no exception
handling in the source, so a detector fault propagates. -/
def decode_qr_from_image_bytes (env : Env) (image_bytes : List Nat) :
    Except BotError (List String) :=
  match env.imdecode image_bytes with
  | none => .ok []
  | some img =>
      match env.detectAndDecode img with
      | .error e => .error e
      | .ok data => .ok (if data = "" then [] else [data])

/-- image_to_qr_base64 (lines 218-229): compress through PIL, base64
encode, reject payloads longer than 2500 characters with ValueError,
otherwise hand the full base64 text to generate_custom_qr, whose
qr.make(fit=True) step raises DataOverflowError for payloads beyond the
symbol capacity (payloads of 1274 to 2500 base64 characters pass the
ceiling check yet overflow every symbol version in byte mode). -/
def image_to_qr_base64 (env : Env) (image_bytes : List Nat) (color : RGB) (rounded : Bool) :
    Except BotError QRImage :=
  match env.compress image_bytes with
  | .error e => .error e
  | .ok compressed =>
      let encoded := b64encode compressed
      if 2500 < encoded.length then .error (.valueError "Image trop lourde pour un QR")
      else generate_custom_qr_checked env encoded color rounded

/-- Nearest integer to a / b, ties towards the floor, as in the
round_aspect helper of PIL Image.thumbnail (modelled with exact rational
arithmetic instead of floats). -/
def roundNearestDiv (a b : Nat) : Nat :=
  if 2 * (a % b) ≤ b then a / b else a / b + 1

/-- PIL Image.thumbnail((mw, mh)): unchanged when the image already fits
the bounding box, otherwise shrink preserving the aspect ratio, keeping
one dimension at the bound and rounding the other to the nearest
integer (at least 1). -/
def thumbnail (img : Raster) (mw mh : Nat) : Raster :=
  if img.width ≤ mw ∧ img.height ≤ mh then img
  else if mh * img.width ≤ mw * img.height then
    { width := max (roundNearestDiv (mh * img.width) img.height) 1
      height := mh
      hasAlpha := img.hasAlpha }
  else
    { width := mw
      height := max (roundNearestDiv (mw * img.height) img.width) 1
      hasAlpha := img.hasAlpha }

/-- Pixel side length of the rendered QR raster: a version v symbol has
17 + 4v modules, plus the border of q.border modules on each side, at
q.box_size pixels per module.  The fitted version comes from the
environment oracle (qr.make(fit=True)). -/
def qrRasterSide (fitVersion : String → Nat) (q : QRImage) : Nat :=
  (17 + 4 * fitVersion q.data + 2 * q.border) * q.box_size

/-- button_callback (lines 131-189) as a pure function from the callback
data string and the current user_data to the new user_data plus outbound
actions.  The branch order mirrors the Python if/elif chain; an unknown
color_ key raises KeyError exactly as COLOR_MAP[data] does. -/
def button_callback (ud : UserData) (data : String) :
    Except BotError (UserData × List BotAction) :=
  if data = "mode_generate" then
    .ok (ud, [.sendText "Choisis le type de génération :"])
  else if data = "gen_text" ∨ data = "gen_img_base64" ∨
      data = "gen_img_styled" ∨ data = "gen_img_link" then
    .ok ({ mode := some data, qr_color := some ⟨0, 0, 0⟩, qr_rounded := some false },
         [.sendText "🎨 Choisis une couleur pour ton QR code :"])
  else if strStartsWith data "color_" then
    match COLOR_MAP data with
    | some c => .ok ({ ud with qr_color := some c },
                     [.sendText "Souhaites-tu des coins arrondis ?"])
    | none => .error (.keyError data)
  else if data = "toggle_rounded" then
    let r := !(ud.qr_rounded.getD false)
    .ok ({ ud with qr_rounded := some r }, [.editMarkup r])
  else if data = "style_done" then
    .ok (ud, [.sendText "✏️ Envoie maintenant le contenu à transformer en QR."])
  else if data = "mode_decode" then
    .ok ({ ud with mode := some "decode" },
         [.sendText "🔍 Envoie une image contenant un QR code."])
  else if data = "back_to_menu" then
    .ok (emptyUD, [.sendText "Menu principal :"])
  else if data = "stop" then
    .ok (emptyUD, [.sendText "🛑 Mode arrêté."])
  else .ok (ud, [])

/-- text_message_handler (lines 242-251): only in mode gen_text does it
produce a QR photo from the submitted text; in every other mode it does
nothing at all.  Reading the style keys mirrors the Python dictionary
accesses (KeyError when absent). -/
def text_message_handler (ud : UserData) (s : String) :
    Except BotError (UserData × List BotAction) :=
  if ud.mode = some "gen_text" then
    match ud.qr_color with
    | none => .error (.keyError "qr_color")
    | some c =>
        match ud.qr_rounded with
        | none => .error (.keyError "qr_rounded")
        | some r => .ok (ud, [.sendPhoto (.qr (generate_custom_qr s c r))])
  else .ok (ud, [])

/-- photo_or_document_handler (lines 253-310).  The file extraction keeps
only photos and documents with an image/ mime type; the mode dispatch
follows the Python elif chain, ending in a silent return when no mode
matches.  The gen_img_styled branch performs the logo compositing inline
as the source does: thumbnail to a fixed 200 by 200 box, centred paste
position by floor division, the logo itself used as the paste mask. -/
def photo_or_document_handler (env : Env) (ud : UserData) (msg : TgMessage) :
    Except BotError (UserData × List BotAction) :=
  match (match msg with
         | .photo b => some b
         | .document mime b => if strStartsWith mime "image/" then some b else none
         | _ => none : Option (List Nat)) with
  | none => .ok (ud, [])
  | some image_bytes =>
    if ud.mode = some "gen_img_base64" then
      match ud.qr_color with
      | none => .error (.keyError "qr_color")
      | some c =>
          match ud.qr_rounded with
          | none => .error (.keyError "qr_rounded")
          | some r =>
              match image_to_qr_base64 env image_bytes c r with
              | .error e => .error e
              | .ok qr => .ok (ud, [.sendPhoto (.qr qr)])
    else if ud.mode = some "gen_img_styled" then
      match ud.qr_color with
      | none => .error (.keyError "qr_color")
      | some c =>
          match ud.qr_rounded with
          | none => .error (.keyError "qr_rounded")
          | some r =>
              let qr := generate_custom_qr "QR Stylisé" c r
              match env.openRGBA image_bytes with
              | .error e => .error e
              | .ok logo0 =>
                  let logo := thumbnail logo0 200 200
                  let side := qrRasterSide env.fitVersion qr
                  let pos : Int × Int :=
                    (((side : Int) - (logo.width : Int)).fdiv 2,
                     ((side : Int) - (logo.height : Int)).fdiv 2)
                  .ok (ud, [.sendPhoto (.qrWithLogo qr side logo pos (some logo))])
    else if ud.mode = some "gen_img_link" then
      match ud.qr_color with
      | none => .error (.keyError "qr_color")
      | some c =>
          match ud.qr_rounded with
          | none => .error (.keyError "qr_rounded")
          | some r =>
              .ok (ud, [.sendPhoto (.qr (generate_custom_qr "https://example.com/image" c r))])
    else if ud.mode = some "decode" then
      match decode_qr_from_image_bytes env image_bytes with
      | .error e => .error e
      | .ok decoded =>
          .ok (ud, [.sendText (match decoded with
                               | d :: _ => d
                               | [] => "❌ Aucun QR détecté.")])
    else .ok (ud, [])

/-- unknown_handler (lines 313-317): reply with the unknown-command
notice, user_data untouched. -/
def unknown_handler (ud : UserData) : Except BotError (UserData × List BotAction) :=
  .ok (ud, [.sendText "Commande inconnue. /start"])

/-- Message dispatch following the handler registration order of main()
(lines 323-330): the /start and /stop commands, then TEXT and not
COMMAND, then PHOTO, then Document.IMAGE, and finally filters.ALL
falling through to unknown_handler. -/
def dispatch (env : Env) (ud : UserData) (msg : TgMessage) :
    Except BotError (UserData × List BotAction) :=
  match msg with
  | .text s =>
      if strStartsWith s "/" then
        if firstToken s = "/start" then
          .ok (emptyUD, [.sendText "👋 Bienvenue sur *QRcodeBot*\n\nChoisis une action :"])
        else if firstToken s = "/stop" then
          .ok (emptyUD, [.sendText "🛑 Mode arrêté."])
        else unknown_handler ud
      else text_message_handler ud s
  | .photo b => photo_or_document_handler env ud (.photo b)
  | .document mime b =>
      if strStartsWith mime "image/" then
        photo_or_document_handler env ud (.document mime b)
      else unknown_handler ud
  | .other => unknown_handler ud

/-- One full framework turn: python-telegram-bot catches any exception a
handler raises, logs it, and sends nothing; the per-user session
dictionary keeps its previous value in that case. -/
def process_update (env : Env) (ud : UserData) (msg : TgMessage) :
    UserData × List BotAction :=
  match dispatch env ud msg with
  | .ok res => res
  | .error _ => (ud, [])

/-- Run a list of callback-query events through button_callback,
threading the session state, stopping at the first uncaught exception. -/
def runCallbacks (ud : UserData) : List String → Except BotError UserData
  | [] => .ok ud
  | d :: ds =>
      match button_callback ud d with
      | .ok res => runCallbacks res.1 ds
      | .error e => .error e

/-- Benign default oracle set used as a base for the concrete scenarios. -/
def defaultEnv : Env :=
  { compress := fun _ => .ok []
    openRGBA := fun _ => .ok ⟨1, 1, true⟩
    fitVersion := fun _ => 1
    makeFits := fun _ => true
    imdecode := fun _ => none
    detectAndDecode := fun _ => .ok ""
    detectAndDecodeMulti := fun _ => .ok [] }

/-- Scenario oracle: the uploaded image decodes to a raster that carries
two QR symbols, A and B; single-symbol detection finds A, multi-symbol
detection would find both. -/
def twoSymbolEnv : Env :=
  { defaultEnv with
    imdecode := fun _ => some 0
    detectAndDecode := fun _ => .ok "A"
    detectAndDecodeMulti := fun _ => .ok ["A", "B"] }

/-- Session in decoding mode. -/
def decodeUD : UserData := ⟨some "decode", none, none⟩

/-- Scenario oracle: the PIL pipeline compresses the upload to 1876
bytes, whose base64 form has 2504 characters, above the 2500 ceiling. -/
def bigEnv : Env :=
  { defaultEnv with compress := fun _ => .ok (List.replicate 1876 0) }

/-- Session in image-as-payload mode with default style. -/
def imgUD : UserData := ⟨some "gen_img_base64", some ⟨0, 0, 0⟩, some false⟩

/-- Scenario oracle: empty byte input is not decodable as a raster;
any other input decodes but the detector faults on it. -/
def faultEnv : Env :=
  { defaultEnv with
    imdecode := fun b => if b = [] then none else some 0
    detectAndDecode := fun _ => .error .cvError }

/-- Scenario oracle: the upload opens as a 400 by 400 RGBA logo, and the
fixed payload of the styled mode fits in a version 2 symbol (the actual
version the qrcode library picks for the 11 byte payload at level H). -/
def logoEnv : Env :=
  { defaultEnv with
    openRGBA := fun _ => .ok ⟨400, 400, true⟩
    fitVersion := fun _ => 2 }

/-- Session in styled-logo mode with default style. -/
def styledUD : UserData := ⟨some "gen_img_styled", some ⟨0, 0, 0⟩, some false⟩

/-- Session in text mode with default style. -/
def textUD : UserData := ⟨some "gen_text", some ⟨0, 0, 0⟩, some false⟩

/-- Witness oracle: single-symbol detection finds X. -/
def singleEnv : Env :=
  { defaultEnv with
    imdecode := fun _ => some 0
    detectAndDecode := fun _ => .ok "X" }

/-- Witness oracle: the PIL pipeline compresses the upload to 3 bytes. -/
def smallPackEnv : Env :=
  { defaultEnv with compress := fun _ => .ok [1, 2, 3] }

/-- Witness oracle: the PIL pipeline compresses the upload to 1500
bytes, whose base64 form has 2000 characters: under the 2500 ceiling,
yet past the byte-mode capacity of every symbol version, so
qr.make(fit=True) overflows. -/
def overflowEnv : Env :=
  { defaultEnv with
    compress := fun _ => .ok (List.replicate 1500 0)
    makeFits := fun _ => false }

theorem b64Chunks_length : ∀ l : List Nat, (b64Chunks l).length = 4 * ((l.length + 2) / 3)
  | [] => rfl
  | [_] => by simp [b64Chunks]
  | [_, _] => by simp [b64Chunks]
  | _ :: _ :: _ :: rest => by
      have ih := b64Chunks_length rest
      simp only [b64Chunks, List.length_cons, ih]
      omega

/-- Length of a base64 encoding: four characters per three-byte block. -/
theorem b64encode_length (l : List Nat) : (b64encode l).length = 4 * ((l.length + 2) / 3) :=
  b64Chunks_length l

/-- roundNearestDiv never overshoots an upper bound that the exact
quotient satisfies. -/
theorem roundNearestDiv_le (a b m : Nat) (hb : 0 < b) (h : a ≤ m * b) :
    roundNearestDiv a b ≤ m := by
  unfold roundNearestDiv
  split
  · calc a / b ≤ m * b / b := Nat.div_le_div_right h
      _ = m := Nat.mul_div_cancel m hb
  · rename_i hmod
    have h0 : a % b ≠ 0 := by intro h0; rw [h0] at hmod; omega
    have hne : a ≠ m * b := by
      intro he; rw [he] at h0; exact h0 (Nat.mul_mod_left m b)
    have hlt : a < m * b := lt_of_le_of_ne h hne
    have : a / b < m := (Nat.div_lt_iff_lt_mul hb).mpr hlt
    omega

/-- A 200 by 200 thumbnail always fits in the 200 by 200 box and keeps
the alpha flag. -/
theorem thumbnail_le_200 (r : Raster) :
    (thumbnail r 200 200).width ≤ 200 ∧ (thumbnail r 200 200).height ≤ 200 ∧
      (thumbnail r 200 200).hasAlpha = r.hasAlpha := by
  unfold thumbnail
  split
  · rename_i h
    exact ⟨h.1, h.2, rfl⟩
  · rename_i h
    split
    · rename_i hbr
      have hh : 0 < r.height := by omega
      have hround : roundNearestDiv (200 * r.width) r.height ≤ 200 :=
        roundNearestDiv_le _ _ _ hh hbr
      refine ⟨?_, le_refl 200, rfl⟩
      simp only [Raster.mk.injEq]
      omega
    · rename_i hbr
      have hw : 0 < r.width := by omega
      have hround : roundNearestDiv (200 * r.height) r.width ≤ 200 :=
        roundNearestDiv_le _ _ _ hw (by omega)
      refine ⟨le_refl 200, ?_, rfl⟩
      simp only [Raster.mk.injEq]
      omega

/-- The toggle_rounded callback flips the rounded flag (default false)
and re-renders the toggle control, for any session state. -/
theorem button_callback_toggle (ud : UserData) :
    button_callback ud "toggle_rounded" =
      .ok ({ ud with qr_rounded := some (!(ud.qr_rounded.getD false)) },
           [.editMarkup (!(ud.qr_rounded.getD false))]) := rfl

/-- Any run of toggle presses followed by the continue button leaves the
mode and colour untouched and sets the rounded flag to the parity of the
number of presses. -/
theorem runCallbacks_toggles_done (n : Nat) (m : Option String) (c : Option RGB) (b : Bool) :
    runCallbacks ⟨m, c, some b⟩ (List.replicate n "toggle_rounded" ++ ["style_done"]) =
      .ok ⟨m, c, some (if n % 2 = 1 then !b else b)⟩ := by
  induction n generalizing b with
  | zero => rfl
  | succ k ih =>
      rw [List.replicate_succ, List.cons_append]
      simp only [runCallbacks, button_callback_toggle, Option.getD_some]
      rw [ih (!b)]
      rcases Nat.mod_two_eq_zero_or_one k with h | h <;>
        simp [Nat.add_mod, h, Bool.not_not]

/-- A successful callback step lets runCallbacks continue from the new
session state. -/
theorem runCallbacks_cons_ok (ud ud2 : UserData) (acts : List BotAction)
    (d : String) (ds : List String) (h : button_callback ud d = .ok (ud2, acts)) :
    runCallbacks ud (d :: ds) = runCallbacks ud2 ds := by
  simp only [runCallbacks, h]

/-- Claim C6: from any session, selecting a generation purpose P, then a
valid colour key C, pressing the rounded toggle n times and confirming
leaves the session awaiting content for P, with the selected fill colour
and the rounded flag true exactly when n is odd. -/
theorem C6_style_flow (ud : UserData) (P c : String) (rgb : RGB) (n : Nat)
    (hP : P = "gen_text" ∨ P = "gen_img_base64" ∨ P = "gen_img_styled" ∨ P = "gen_img_link")
    (hc : COLOR_MAP c = some rgb) :
    runCallbacks ud (P :: c :: (List.replicate n "toggle_rounded" ++ ["style_done"])) =
      .ok ⟨some P, some rgb, some (if n % 2 = 1 then true else false)⟩ := by
  have h1 : button_callback ud P =
      .ok ((⟨some P, some ⟨0, 0, 0⟩, some false⟩ : UserData),
           [.sendText "🎨 Choisis une couleur pour ton QR code :"]) := by
    rcases hP with h | h | h | h <;> subst h <;> rfl
  have hmem : c = "color_red" ∨ c = "color_blue" ∨ c = "color_green" ∨
      c = "color_purple" ∨ c = "color_black" ∨ c = "color_orange" := by
    by_contra hcon
    push_neg at hcon
    obtain ⟨h1c, h2c, h3c, h4c, h5c, h6c⟩ := hcon
    simp [COLOR_MAP, h1c, h2c, h3c, h4c, h5c, h6c] at hc
  have h2 : button_callback (⟨some P, some ⟨0, 0, 0⟩, some false⟩ : UserData) c =
      .ok ((⟨some P, some rgb, some false⟩ : UserData),
           [.sendText "Souhaites-tu des coins arrondis ?"]) := by
    rcases hmem with h | h | h | h | h | h <;> subst h <;>
      · injection (show some _ = some rgb from hc) with hh
        subst hh
        rfl
  rw [runCallbacks_cons_ok _ _ _ _ _ h1, runCallbacks_cons_ok _ _ _ _ _ h2,
    runCallbacks_toggles_done n (some P) (some rgb) false]
  rfl

/-- Witness for C6: purpose text, colour blue, three toggle presses. -/
theorem C6_style_flow_witness :
    runCallbacks emptyUD
        ("gen_text" :: "color_blue" :: (List.replicate 3 "toggle_rounded" ++ ["style_done"])) =
      .ok ⟨some "gen_text", some ⟨30, 144, 255⟩, some true⟩ :=
  C6_style_flow emptyUD "gen_text" "color_blue" ⟨30, 144, 255⟩ 3 (Or.inl rfl) rfl

/-- Whenever decode_qr_from_image_bytes returns normally, the result has
at most one element and a returned element is a non-empty string. -/
theorem decode_ok_length (env : Env) (bytes : List Nat) (l : List String)
    (h : decode_qr_from_image_bytes env bytes = .ok l) :
    l.length ≤ 1 ∧ ∀ s ∈ l, s ≠ "" := by
  unfold decode_qr_from_image_bytes at h
  split at h
  · injection h with h
    subst h
    simp
  · split at h
    · simp at h
    · injection h with h
      subst h
      rename_i data heq
      by_cases hd2 : data = "" <;> simp [hd2]

/-- Claim C10: the decode function returns a list of length at most one
whose element, if any, is non-empty; hence the decode-mode reply carries
a single payload (or the not-found message). -/
theorem C10_decode_single (env : Env) (bytes : List Nat) (l : List String)
    (h : decode_qr_from_image_bytes env bytes = .ok l) :
    l.length ≤ 1 ∧ (∀ s ∈ l, s ≠ "") ∧
      ∀ (cc : Option RGB) (rr : Option Bool),
        photo_or_document_handler env ⟨some "decode", cc, rr⟩ (.photo bytes) =
          .ok ((⟨some "decode", cc, rr⟩ : UserData),
               [.sendText (l.headD "❌ Aucun QR détecté.")]) := by
  obtain ⟨h1, h2⟩ := decode_ok_length env bytes l h
  refine ⟨h1, h2, ?_⟩
  intro cc rr
  simp only [photo_or_document_handler]
  rw [h]
  cases l with
  | nil => rfl
  | cons d ds => rfl

/-- Witness for C10 at a concrete single-symbol environment. -/
theorem C10_decode_single_witness :
    (["X"] : List String).length ≤ 1 ∧ ("X" : String) ≠ "" ∧
      photo_or_document_handler singleEnv decodeUD (.photo [0]) =
        .ok (decodeUD, [.sendText (["X"].headD "❌ Aucun QR détecté.")]) := by
  obtain ⟨h1, h2, h3⟩ := C10_decode_single singleEnv [0] ["X"] rfl
  exact ⟨h1, h2 "X" (by simp), h3 none none⟩

/-- Counterexample to claim C2: on an image carrying two QR symbols A
and B (the multi-symbol detector would report both), the decoder returns
only the single-detection result and the decoding-mode reply mentions
only A, never B. -/
theorem C2_two_symbols_counterexample :
    decode_qr_from_image_bytes twoSymbolEnv [0] = .ok ["A"] ∧
    twoSymbolEnv.detectAndDecodeMulti 0 = .ok ["A", "B"] ∧
    photo_or_document_handler twoSymbolEnv decodeUD (.photo [0]) =
      .ok (decodeUD, [.sendText "A"]) ∧
    ("B" : String) ∉ (["A"] : List String) :=
  ⟨rfl, rfl, rfl, by decide⟩

/-- Claim C2 (amended): decoding performs a single-symbol detection
attempt only, never consulting the multi-symbol detector (the result is
invariant under replacing that oracle), and returns at most one decoded
string. -/
theorem C2_single_detection_only (env : Env) (f : Nat → Except BotError (List String))
    (bytes : List Nat) (l : List String)
    (h : decode_qr_from_image_bytes env bytes = .ok l) :
    l.length ≤ 1 ∧
      decode_qr_from_image_bytes { env with detectAndDecodeMulti := f } bytes = .ok l :=
  ⟨(decode_ok_length env bytes l h).1, h⟩

/-- Witness for the amended C2 at a concrete environment. -/
theorem C2_single_detection_only_witness :
    (["X"] : List String).length ≤ 1 ∧
      decode_qr_from_image_bytes
          { singleEnv with detectAndDecodeMulti := fun _ => .ok ["Y", "Z"] } [0] =
        .ok ["X"] :=
  C2_single_detection_only singleEnv (fun _ => .ok ["Y", "Z"]) [0] ["X"] rfl

/-- Counterexample to claim C7: the source wraps no exception handler
around detectAndDecode, so an internal detector fault propagates past
the decoder boundary instead of being treated as zero results. -/
theorem C7_detector_fault_counterexample :
    decode_qr_from_image_bytes faultEnv [0] = .error BotError.cvError := rfl

/-- Claim C7 (amended): bytes that do not decode as a raster yield the
empty result (same outcome as no symbol found), but a detector fault on
a decodable image is not caught and propagates. -/
theorem C7_decode_totality (env : Env) (bad good : List Nat) (img : Nat) (e : BotError)
    (h1 : env.imdecode bad = none) (h2 : env.imdecode good = some img)
    (h3 : env.detectAndDecode img = .error e) :
    decode_qr_from_image_bytes env bad = .ok [] ∧
      decode_qr_from_image_bytes env good = .error e := by
  constructor
  · unfold decode_qr_from_image_bytes
    simp only [h1]
  · unfold decode_qr_from_image_bytes
    simp only [h2, h3]

/-- Witness for the amended C7 at a concrete environment. -/
theorem C7_decode_totality_witness :
    decode_qr_from_image_bytes faultEnv [] = .ok [] ∧
      decode_qr_from_image_bytes faultEnv [0] = .error BotError.cvError :=
  C7_decode_totality faultEnv [] [0] 0 BotError.cvError rfl rfl rfl

/-- In image-as-payload mode the photo handler is exactly
image_to_qr_base64 followed by one reply_photo; an exception from the
packer propagates. -/
theorem photo_handler_base64 (env : Env) (bytes : List Nat) (c : RGB) (r : Bool) :
    photo_or_document_handler env ⟨some "gen_img_base64", some c, some r⟩ (.photo bytes) =
      match image_to_qr_base64 env bytes c r with
      | .error e => .error e
      | .ok qr => .ok ((⟨some "gen_img_base64", some c, some r⟩ : UserData),
                       [.sendPhoto (.qr qr)]) := rfl

/-- In styled-logo mode the photo handler opens the upload as RGBA,
thumbnails it to 200 by 200, and pastes it centred (with itself as the
alpha mask) on the rendered QR raster. -/
theorem photo_handler_styled (env : Env) (bytes : List Nat) (c : RGB) (r : Bool) :
    photo_or_document_handler env ⟨some "gen_img_styled", some c, some r⟩ (.photo bytes) =
      match env.openRGBA bytes with
      | .error e => .error e
      | .ok logo0 =>
          .ok ((⟨some "gen_img_styled", some c, some r⟩ : UserData),
            [.sendPhoto (.qrWithLogo (generate_custom_qr "QR Stylisé" c r)
              (qrRasterSide env.fitVersion (generate_custom_qr "QR Stylisé" c r))
              (thumbnail logo0 200 200)
              (((qrRasterSide env.fitVersion (generate_custom_qr "QR Stylisé" c r) : Int) -
                  ((thumbnail logo0 200 200).width : Int)).fdiv 2,
               ((qrRasterSide env.fitVersion (generate_custom_qr "QR Stylisé" c r) : Int) -
                  ((thumbnail logo0 200 200).height : Int)).fdiv 2)
              (some (thumbnail logo0 200 200)))]) := rfl

/-- Claim C3: when the compressed upload exceeds the 2500 character
ceiling in base64 form the packer raises the ValueError instead of
truncating; under the ceiling the outcome follows the encoder fit
(success, or DataOverflowError from qr.make for payloads past the
symbol capacity); and every successful return carries exactly the full
untruncated base64 text, at most 2500 characters long, as the QR
payload. -/
theorem C3_packer_capacity (env : Env) (bytes : List Nat) (color : RGB) (rounded : Bool)
    (comp : List Nat) (hc : env.compress bytes = .ok comp) :
    (2500 < (b64encode comp).length →
        image_to_qr_base64 env bytes color rounded =
          .error (.valueError "Image trop lourde pour un QR")) ∧
    ((b64encode comp).length ≤ 2500 → env.makeFits (b64encode comp) = false →
        image_to_qr_base64 env bytes color rounded = .error .dataOverflow) ∧
    ((b64encode comp).length ≤ 2500 → env.makeFits (b64encode comp) = true →
        image_to_qr_base64 env bytes color rounded =
          .ok (generate_custom_qr (b64encode comp) color rounded)) ∧
    (∀ q, image_to_qr_base64 env bytes color rounded = .ok q →
        q.data = b64encode comp ∧ q.data.length ≤ 2500) := by
  have hbase : image_to_qr_base64 env bytes color rounded =
      (if 2500 < (b64encode comp).length then
        .error (.valueError "Image trop lourde pour un QR")
      else generate_custom_qr_checked env (b64encode comp) color rounded) := by
    unfold image_to_qr_base64
    simp only [hc]
  refine ⟨?_, ?_, ?_, ?_⟩
  · intro hbig
    rw [hbase, if_pos hbig]
  · intro hsmall hfit
    rw [hbase, if_neg (by omega)]
    unfold generate_custom_qr_checked
    rw [hfit]
    rfl
  · intro hsmall hfit
    rw [hbase, if_neg (by omega)]
    unfold generate_custom_qr_checked
    rw [hfit]
    rfl
  · intro q hq
    rw [hbase] at hq
    by_cases hbig : 2500 < (b64encode comp).length
    · rw [if_pos hbig] at hq
      simp at hq
    · rw [if_neg hbig] at hq
      unfold generate_custom_qr_checked at hq
      by_cases hfit : env.makeFits (b64encode comp) = true
      · rw [if_pos hfit] at hq
        injection hq with hq
        subst hq
        exact ⟨rfl, le_of_not_lt hbig⟩
      · rw [if_neg hfit] at hq
        simp at hq

/-- Witness for C3: a 3 byte compressed image packs to its full 4
character base64 form, while a 1500 byte compressed image (2000 base64
characters, under the ceiling) hits the encoder capacity error. -/
theorem C3_packer_capacity_witness :
    image_to_qr_base64 smallPackEnv [0] ⟨0, 0, 0⟩ false =
      .ok (generate_custom_qr (b64encode [1, 2, 3]) ⟨0, 0, 0⟩ false) ∧
    (generate_custom_qr (b64encode [1, 2, 3]) ⟨0, 0, 0⟩ false).data = b64encode [1, 2, 3] ∧
    (generate_custom_qr (b64encode [1, 2, 3]) ⟨0, 0, 0⟩ false).data.length ≤ 2500 ∧
    image_to_qr_base64 overflowEnv [0] ⟨0, 0, 0⟩ false = .error .dataOverflow := by
  obtain ⟨-, -, h3, h4⟩ := C3_packer_capacity smallPackEnv [0] ⟨0, 0, 0⟩ false [1, 2, 3] rfl
  obtain ⟨-, h2o, -, -⟩ :=
    C3_packer_capacity overflowEnv [0] ⟨0, 0, 0⟩ false (List.replicate 1500 0) rfl
  have hok := h3 (by decide) rfl
  obtain ⟨hd, hl⟩ := h4 _ hok
  exact ⟨hok, hd, hl, h2o (by rw [b64encode_length, List.length_replicate]; decide) rfl⟩

/-- Counterexample to claim C4: an oversized payload in image-as-payload
mode makes the handler raise the uncaught ValueError, and the framework
turn produces zero outbound messages, so no error text reaches the
user. -/
theorem C4_no_error_message_counterexample :
    photo_or_document_handler bigEnv imgUD (.photo [0]) =
      .error (.valueError "Image trop lourde pour un QR") ∧
    process_update bigEnv imgUD (.photo [0]) = (imgUD, []) := by
  have hlen : 2500 < (b64encode (List.replicate 1876 0)).length := by
    rw [b64encode_length, List.length_replicate]
    decide
  have hcomp : bigEnv.compress [0] = .ok (List.replicate 1876 0) := rfl
  have h1 : image_to_qr_base64 bigEnv [0] ⟨0, 0, 0⟩ false =
      .error (.valueError "Image trop lourde pour un QR") := by
    unfold image_to_qr_base64
    simp only [hcomp]
    rw [if_pos hlen]
  have h2 : photo_or_document_handler bigEnv imgUD (.photo [0]) =
      .error (.valueError "Image trop lourde pour un QR") := by
    show photo_or_document_handler bigEnv ⟨some "gen_img_base64", some ⟨0, 0, 0⟩, some false⟩
        (.photo [0]) = .error (.valueError "Image trop lourde pour un QR")
    rw [photo_handler_base64, h1]
  refine ⟨h2, ?_⟩
  unfold process_update dispatch
  simp only [h2]

/-- Claim C4 (amended): a PayloadTooLarge failure in image-as-payload
mode escapes the handler uncaught; the framework swallows it, sending no
message at all, and the session dictionary (hence the mode) is left
exactly as it was, so the user may retry next turn. -/
theorem C4_payload_error_silent (env : Env) (bytes comp : List Nat) (c : RGB) (r : Bool)
    (hc : env.compress bytes = .ok comp)
    (hlen : 2500 < (b64encode comp).length) :
    photo_or_document_handler env ⟨some "gen_img_base64", some c, some r⟩ (.photo bytes) =
      .error (.valueError "Image trop lourde pour un QR") ∧
    process_update env ⟨some "gen_img_base64", some c, some r⟩ (.photo bytes) =
      ((⟨some "gen_img_base64", some c, some r⟩ : UserData), []) := by
  have h1 : image_to_qr_base64 env bytes c r =
      .error (.valueError "Image trop lourde pour un QR") := by
    unfold image_to_qr_base64
    simp only [hc]
    rw [if_pos hlen]
  have h2 : photo_or_document_handler env ⟨some "gen_img_base64", some c, some r⟩
      (.photo bytes) = .error (.valueError "Image trop lourde pour un QR") := by
    rw [photo_handler_base64, h1]
  refine ⟨h2, ?_⟩
  unfold process_update dispatch
  simp only [h2]

/-- Witness for the amended C4 at the concrete oversized environment. -/
theorem C4_payload_error_silent_witness :
    photo_or_document_handler bigEnv imgUD (.photo [1]) =
      .error (.valueError "Image trop lourde pour un QR") ∧
    process_update bigEnv imgUD (.photo [1]) = (imgUD, []) :=
  C4_payload_error_silent bigEnv [1] (List.replicate 1876 0) ⟨0, 0, 0⟩ false rfl
    (by rw [b64encode_length, List.length_replicate]; decide)

/-- Counterexample to claim C5: a plain text generation request (no logo,
no image payload) still uses error correction level H, not Q. -/
theorem C5_text_level_counterexample :
    text_message_handler textUD "hello" =
      .ok (textUD, [.sendPhoto (.qr (generate_custom_qr "hello" ⟨0, 0, 0⟩ false))]) ∧
    (generate_custom_qr "hello" ⟨0, 0, 0⟩ false).error_correction = ECLevel.H ∧
    ECLevel.H ≠ ECLevel.Q :=
  ⟨rfl, rfl, by decide⟩

/-- Claim C5 (amended): every encoding request, whatever the mode, uses
error correction level H; the code never selects Q. -/
theorem C5_always_H (d : String) (c : RGB) (r : Bool) :
    (generate_custom_qr d c r).error_correction = ECLevel.H := rfl

/-- Counterexample to claim C8: with the fixed payload (a version 2
symbol, raster side 396 pixels) a large logo is thumbnailed to the fixed
200 by 200 bound, which exceeds one third (and one quarter) of the
raster side: the resize bound does not scale with the QR. -/
theorem C8_logo_fraction_counterexample :
    photo_or_document_handler logoEnv styledUD (.photo [0]) =
      .ok (styledUD,
        [.sendPhoto (.qrWithLogo (generate_custom_qr "QR Stylisé" ⟨0, 0, 0⟩ false) 396
          ⟨200, 200, true⟩ (98, 98) (some ⟨200, 200, true⟩))]) ∧
    396 / 3 < 200 ∧ 396 / 4 < 200 :=
  ⟨rfl, by decide, by decide⟩

/-- Claim C8 (amended): the logo is resized to fit a fixed 200 by 200
box (independent of the QR raster side, so it can exceed a third of it),
its alpha flag survives the resize, and it is pasted centred using
itself as the transparency mask. -/
theorem C8_logo_composite (env : Env) (bytes : List Nat) (logo0 : Raster) (c : RGB) (r : Bool)
    (hl : env.openRGBA bytes = .ok logo0) :
    photo_or_document_handler env ⟨some "gen_img_styled", some c, some r⟩ (.photo bytes) =
      .ok ((⟨some "gen_img_styled", some c, some r⟩ : UserData),
        [.sendPhoto (.qrWithLogo (generate_custom_qr "QR Stylisé" c r)
          (qrRasterSide env.fitVersion (generate_custom_qr "QR Stylisé" c r))
          (thumbnail logo0 200 200)
          (((qrRasterSide env.fitVersion (generate_custom_qr "QR Stylisé" c r) : Int) -
              ((thumbnail logo0 200 200).width : Int)).fdiv 2,
           ((qrRasterSide env.fitVersion (generate_custom_qr "QR Stylisé" c r) : Int) -
              ((thumbnail logo0 200 200).height : Int)).fdiv 2)
          (some (thumbnail logo0 200 200)))]) ∧
    (thumbnail logo0 200 200).width ≤ 200 ∧
    (thumbnail logo0 200 200).height ≤ 200 ∧
    (thumbnail logo0 200 200).hasAlpha = logo0.hasAlpha := by
  refine ⟨?_, (thumbnail_le_200 logo0).1, (thumbnail_le_200 logo0).2.1,
    (thumbnail_le_200 logo0).2.2⟩
  rw [photo_handler_styled]
  simp only [hl]

/-- Witness for the amended C8 at the concrete 400 by 400 logo. -/
theorem C8_logo_composite_witness :
    photo_or_document_handler logoEnv styledUD (.photo [3]) =
      .ok (styledUD,
        [.sendPhoto (.qrWithLogo (generate_custom_qr "QR Stylisé" ⟨0, 0, 0⟩ false)
          (qrRasterSide logoEnv.fitVersion (generate_custom_qr "QR Stylisé" ⟨0, 0, 0⟩ false))
          (thumbnail ⟨400, 400, true⟩ 200 200)
          (((qrRasterSide logoEnv.fitVersion
                (generate_custom_qr "QR Stylisé" ⟨0, 0, 0⟩ false) : Int) -
              ((thumbnail ⟨400, 400, true⟩ 200 200).width : Int)).fdiv 2,
           ((qrRasterSide logoEnv.fitVersion
                (generate_custom_qr "QR Stylisé" ⟨0, 0, 0⟩ false) : Int) -
              ((thumbnail ⟨400, 400, true⟩ 200 200).height : Int)).fdiv 2)
          (some (thumbnail ⟨400, 400, true⟩ 200 200)))]) ∧
    (thumbnail ⟨400, 400, true⟩ 200 200).width ≤ 200 ∧
    (thumbnail ⟨400, 400, true⟩ 200 200).height ≤ 200 ∧
    (thumbnail ⟨400, 400, true⟩ 200 200).hasAlpha = (⟨400, 400, true⟩ : Raster).hasAlpha :=
  C8_logo_composite logoEnv [3] ⟨400, 400, true⟩ ⟨0, 0, 0⟩ false rfl

/-- Counterexample to claim C9: a text message in Decoding mode matches
no transition, and the bot sends nothing at all: no unrecognized notice
is produced. -/
theorem C9_unmatched_counterexample :
    dispatch defaultEnv decodeUD (.text "hello") = .ok (decodeUD, []) := rfl

/-- Claim C9 (amended): with no mode selected, an unmatched text message
or image upload leaves the session unchanged but produces no notice at
all; the unrecognized notice is sent, with the state unchanged, only for
messages that are neither text nor photo nor image document. -/
theorem C9_silent_unmatched (env : Env) (s : String) (bytes : List Nat)
    (cc : Option RGB) (rr : Option Bool)
    (hs : strStartsWith s "/" = false) :
    dispatch env ⟨none, cc, rr⟩ (.text s) = .ok ((⟨none, cc, rr⟩ : UserData), []) ∧
    dispatch env ⟨none, cc, rr⟩ (.photo bytes) = .ok ((⟨none, cc, rr⟩ : UserData), []) ∧
    dispatch env ⟨none, cc, rr⟩ .other =
      .ok ((⟨none, cc, rr⟩ : UserData), [.sendText "Commande inconnue. /start"]) := by
  refine ⟨?_, rfl, rfl⟩
  simp only [dispatch]
  rw [hs]
  rfl

/-- Witness for the amended C9 at a fresh session. -/
theorem C9_silent_unmatched_witness :
    dispatch defaultEnv emptyUD (.text "hello") = .ok (emptyUD, []) ∧
    dispatch defaultEnv emptyUD (.photo [0]) = .ok (emptyUD, []) ∧
    dispatch defaultEnv emptyUD .other =
      .ok (emptyUD, [.sendText "Commande inconnue. /start"]) :=
  C9_silent_unmatched defaultEnv "hello" [0] none none rfl
